import Mathlib

/-!
Verification development for the outblog-crawl core: shallow embedding of
the v0 scrape controller, the v1 crawl controller, the credit gate and the
crawl-progress streamer, with theorems settling the specification claims.
-/

namespace OutblogCrawl

/-- Decidable equality for `Except`, used to evaluate embedded functions at
concrete inputs. -/
instance {ε α : Type} [DecidableEq ε] [DecidableEq α] : DecidableEq (Except ε α) := fun a b =>
  match a, b with
  | .ok x, .ok y =>
    if h : x = y then isTrue (by rw [h]) else isFalse (fun he => h (Except.ok.inj he))
  | .error x, .error y =>
    if h : x = y then isTrue (by rw [h]) else isFalse (fun he => h (Except.error.inj he))
  | .ok _, .error _ => isFalse (fun he => Except.noConfusion he)
  | .error _, .ok _ => isFalse (fun he => Except.noConfusion he)

/-! ### String primitives (JS `startsWith` / `includes`) -/

/-- Does the first char list lead (start) the second? Embeds JS `String.prototype.startsWith`. -/
def charsLead : List Char → List Char → Bool
  | [], _ => true
  | _ :: _, [] => false
  | a :: as, b :: bs => a == b && charsLead as bs

/-- Does `needle` occur as a contiguous run inside `hay`? Embeds JS `String.prototype.includes`. -/
def charsHas (needle : List Char) : List Char → Bool
  | [] => charsLead needle []
  | b :: bs => charsLead needle (b :: bs) || charsHas needle bs

/-- JS `s.startsWith(pre)`. -/
def strStarts (s pre : String) : Bool := charsLead pre.toList s.toList

/-- JS `s.includes(sub)`. -/
def strHas (s sub : String) : Bool := charsHas sub.toList s.toList

/-! ### v0 scrape data model (`controllers/v0/scrape.ts`) -/

/-- The worker-produced document, restricted to the fields the v0 scrape path
touches (`delete doc.index`, `delete doc.provider`, conditional deletion of
`rawHtml`, `html`, `markdown`). `none` models an absent (deleted) field. -/
structure Doc where
  index : Option String
  provider : Option String
  rawHtml : Option String
  html : Option String
  markdown : Option String
deriving DecidableEq, Repr

/-- A JavaScript exception as scrapeHelper distinguishes it: a `ZodError`
(thrown by `urlSchema.parse`), another `Error` instance (with its `message`),
a plain string, or anything else. -/
inductive JsError
  | zodError
  | errorObj (message : String)
  | stringErr (s : String)
  | otherErr
deriving DecidableEq, Repr

/-- Modelled from the spec: outcome of `urlSchema.parse(req.body.url)`.
The `url` schema lives in `controllers/v1/types` (not under `src/`); per the
spec it parses and normalizes the URL, rejecting non-string or invalid input
("Parse and normalize URL (reject non-string, invalid scheme, ...)") — a zod
schema's `parse` throws a `ZodError` on rejection, and otherwise returns the
parsed value (which the code additionally guards with `typeof url !== "string"`). -/
inductive UrlParseOutcome
  | ok (url : String)
  | nonString
  | throwsZod
deriving DecidableEq, Repr

/-- Outcome of `waitForJob(jobId, timeout)`: resolves with the job document
(possibly falsy, modelled `none`) or rejects with an exception. -/
inductive WaitOutcome
  | resolved (doc : Option Doc)
  | rejected (e : JsError)
deriving DecidableEq, Repr

/-- The v0 page options the scrape path reads. -/
structure V0PageOptions where
  includeRawHtml : Bool
  includeHtml : Bool
  includeExtract : Bool
  includeMarkdown : Bool
deriving DecidableEq, Repr

/-- The v0 extractor options the scrape path reads: the `mode` string and
whether `extractionSchema` is object-typed. -/
structure V0ExtractorOptions where
  mode : String
  schemaIsObject : Bool
deriving DecidableEq, Repr

/-- Return shape of `scrapeHelper`. -/
structure ScrapeResult where
  success : Bool
  error : Option String
  data : Option Doc
  returnCode : Nat
deriving DecidableEq, Repr

/-- Modelled from the spec: the fixed blocklist message constant
`BLOCKLISTED_URL_MESSAGE` from `lib/strings` (not under `src/`); only its
identity matters to the claims. -/
def BLOCKLISTED_URL_MESSAGE : String := "URL is blocklisted"

/-- Shallow embedding of `scrapeHelper` (`controllers/v0/scrape.ts`).
External effects are inputs: `blocked` is `isUrlBlocked(url, flags)`,
`parse` the `urlSchema.parse` outcome, `wait` the `waitForJob` outcome, and
`tl` the `toLegacyDocument` transform (external shape change, kept abstract).
A thrown exception is `Except.error`. -/
def scrapeHelper (blocked : Bool) (parse : UrlParseOutcome)
    (pageOptions : V0PageOptions) (extractorOptions : V0ExtractorOptions)
    (wait : WaitOutcome) (tl : Doc → Doc) : Except JsError ScrapeResult :=
  match parse with
  | .throwsZod => .error .zodError
  | .nonString =>
    .ok { success := false, error := some "Url is required", data := none, returnCode := 400 }
  | .ok _url =>
    if blocked then
      .ok { success := false, error := some BLOCKLISTED_URL_MESSAGE, data := none,
            returnCode := 403 }
    else
      match wait with
      | .rejected (.errorObj msg) =>
        if strStarts msg "Job wait" || msg == "timeout" then
          .ok { success := false, error := some "Request timed out", data := none,
                returnCode := 408 }
        else
          .error (.errorObj msg)
      | .rejected (.stringErr s) =>
        if strHas s "Error generating completions: " ||
            strHas s "Invalid schema for function" ||
            strHas s "LLM extraction did not match the extraction schema you provided." then
          .ok { success := false, error := some s, data := none, returnCode := 500 }
        else
          .error (.stringErr s)
      | .rejected e => .error e
      | .resolved none =>
        .ok { success := true, error := some "No page found", data := none, returnCode := 200 }
      | .resolved (some doc) =>
        let doc1 : Doc := { doc with index := none, provider := none }
        let doc2 : Doc :=
          if !pageOptions.includeRawHtml &&
              extractorOptions.mode == "llm-extraction-from-raw-html" then
            { doc1 with rawHtml := none }
          else doc1
        let doc3 : Doc :=
          if !pageOptions.includeHtml then { doc2 with html := none } else doc2
        .ok { success := true, error := none, data := some (tl doc3), returnCode := 200 }

/-! ### v0 scrape controller (`scrapeController`) -/

/-- Outcome of `checkTeamCredits`: a result with a success flag, or a throw. -/
inductive CreditCheckOutcome
  | ok (success : Bool)
  | throws
deriving DecidableEq, Repr

/-- The body a v0 scrape response carries: an error object or a `ScrapeResult`. -/
inductive V0Body
  | errorBody (error : String)
  | resultBody (r : ScrapeResult)
deriving DecidableEq, Repr

/-- Observable outcome of one `scrapeController` run: the HTTP response,
the credits of each `billTeam` call made, and whether a billing failure was
logged (`billTeam(...).catch(error => logger.error(...))`). -/
structure V0ControllerOutput where
  status : Nat
  body : V0Body
  billing : List Nat
  billingFailureLogged : Bool
deriving DecidableEq, Repr

/-- Inputs to one `scrapeController` run; external effects appear as values:
the auth outcome, the authenticated team chunk flags, the merged options,
the credit-check outcome, and the `scrapeHelper` externals. `billingRejects`
says whether the fire-and-forget `billTeam` promise would reject. -/
structure V0ControllerInput where
  authSuccess : Bool
  authStatus : Nat
  authError : String
  forceZDR : Bool
  pageOptions : V0PageOptions
  extractorOptions : V0ExtractorOptions
  creditCheck : CreditCheckOutcome
  blocked : Bool
  parse : UrlParseOutcome
  wait : WaitOutcome
  billingRejects : Bool

/-- The final field stripping `scrapeController` applies to `result.data`
before `res.json(result)` (strip `rawHtml` unless requested; strip `markdown`
when only the extract was requested). -/
def stripFinal (po : V0PageOptions) (r : ScrapeResult) : ScrapeResult :=
  let d1 : Option Doc :=
    if !po.includeRawHtml then
      match r.data with
      | some dd => some { dd with rawHtml := none }
      | none => none
    else r.data
  let d2 : Option Doc :=
    if po.includeExtract && !po.includeMarkdown then
      match d1 with
      | some dd => some { dd with markdown := none }
      | none => d1
    else d1
  { r with data := d2 }

/-- Shallow embedding of `scrapeController` (`controllers/v0/scrape.ts`).
Mirrors the control flow: auth, `forceZDR` rejection, LLM-extraction schema
check, credit check (402 / 500), `scrapeHelper`, conditional fire-and-forget
billing (1 credit, +4 in LLM-extraction mode), final field stripping, and the
catch-all that maps a thrown `ZodError` to 500 "Invalid URL". -/
def scrapeController (inp : V0ControllerInput) (tl : Doc → Doc) : V0ControllerOutput :=
  if !inp.authSuccess then
    { status := inp.authStatus, body := .errorBody inp.authError, billing := [],
      billingFailureLogged := false }
  else if inp.forceZDR then
    { status := 400,
      body := .errorBody "Your team has zero data retention enabled. This is not supported on the v0 API.",
      billing := [], billingFailureLogged := false }
  else if strHas inp.extractorOptions.mode "llm-extraction" &&
      !inp.extractorOptions.schemaIsObject then
    { status := 400,
      body := .errorBody "extractorOptions.extractionSchema must be an object if llm-extraction mode is specified",
      billing := [], billingFailureLogged := false }
  else
    match inp.creditCheck with
    | .throws =>
      { status := 500,
        body := .errorBody "Error checking team credits. Please contact help.",
        billing := [], billingFailureLogged := false }
    | .ok false =>
      { status := 402,
        body := .errorBody "Insufficient credits. For more credits, you can upgrade your plan at https://firecrawl.dev/pricing",
        billing := [], billingFailureLogged := false }
    | .ok true =>
      match scrapeHelper inp.blocked inp.parse inp.pageOptions inp.extractorOptions
          inp.wait tl with
      | .error e =>
        { status := 500,
          body := .errorBody
            (match e with
             | .zodError => "Invalid URL"
             | .stringErr s => s
             | .errorObj msg => msg
             | .otherErr => "Internal Server Error"),
          billing := [], billingFailureLogged := false }
      | .ok result =>
        let creditsToBeBilled : Nat :=
          if strHas inp.extractorOptions.mode "llm-extraction" then 1 + 4 else 1
        let billing : List Nat :=
          if result.success && creditsToBeBilled > 0 then [creditsToBeBilled] else []
        let result2 := stripFinal inp.pageOptions result
        { status := result2.returnCode, body := .resultBody result2, billing := billing,
          billingFailureLogged := inp.billingRejects && !billing.isEmpty }

/-! ### Credit gate (`services/billing/credit_billing.ts`) -/

/-- Email notification kinds the credit gate can emit. -/
inductive NotificationKind
  | LIMIT_REACHED
  | APPROACHING_LIMIT
deriving DecidableEq, Repr

/-- The team credit chunk (`AuthCreditUsageChunk`) restricted to the fields
`supaCheckTeamCredits` reads. JS numbers are embedded as `ℚ`. -/
structure CreditChunk where
  adjusted_credits_used : ℚ
  remaining_credits : ℚ
  total_credits_sum : Option ℚ
  is_extract : Bool
deriving DecidableEq, Repr

/-- The team auto-recharge configuration as resolved from the cache or the
`teams` table (`auto_recharge`, `auto_recharge_threshold`). -/
structure RechargeConfig where
  enabled : Bool
  threshold : ℚ
deriving DecidableEq, Repr

/-- Outcome of the external `autoCharge(chunk, threshold)` call. -/
structure AutoChargeOutcome where
  success : Bool
  message : String
  remainingCredits : ℚ
deriving DecidableEq, Repr

/-- Result of a credit check. `remainingCredits` is `none` for the JS
`Infinity` of the preview-team branch, `some q` otherwise. -/
structure CreditCheckResult where
  success : Bool
  message : String
  remainingCredits : Option ℚ
deriving DecidableEq, Repr

/-- `totalPriceCredits`: the chunk's `total_credits_sum ?? 100000000`. -/
def totalOf (c : CreditChunk) : ℚ := c.total_credits_sum.getD 100000000

/-- `creditUsagePercentage`: `adjusted_credits_used / totalPriceCredits`
(no `+ credits`, per the source comment "Removal of + credits"). -/
def usageRatio (c : CreditChunk) : ℚ := c.adjusted_credits_used / totalOf c

/-- The denial message of the credit gate. -/
def insufficientCreditsMessage : String :=
  "Insufficient credits to perform this request. For more credits, you can upgrade your plan at https://firecrawl.dev/pricing."

/-- Shallow embedding of `supaCheckTeamCredits` (`credit_billing.ts`).
External reads are inputs: `cfg` the resolved auto-recharge config and `ac`
the `autoCharge` outcome. Returns the check result together with the list of
notifications sent, or `Except.error` for the thrown null-chunk error. -/
def supaCheckTeamCredits (cfg : RechargeConfig) (ac : AutoChargeOutcome)
    (chunk : Option CreditChunk) (team_id : String) (credits : ℚ) :
    Except String (CreditCheckResult × List NotificationKind) :=
  if team_id == "preview" || strStarts team_id "preview_" || strStarts team_id "env_" then
    .ok ({ success := true, message := "Preview team, no credits used",
           remainingCredits := none }, [])
  else
    match chunk with
    | none => .error "NULL ACUC passed to supaCheckTeamCredits"
    | some c =>
      if cfg.enabled && decide (c.remaining_credits < cfg.threshold) && !c.is_extract &&
          ac.success then
        .ok ({ success := true, message := ac.message,
               remainingCredits := some ac.remainingCredits }, [])
      else if c.adjusted_credits_used + credits > totalOf c then
        .ok ({ success := false, message := insufficientCreditsMessage,
               remainingCredits := some c.remaining_credits },
             if c.adjusted_credits_used > totalOf c then
               [NotificationKind.LIMIT_REACHED]
             else [])
      else if usageRatio c ≥ 0.8 ∧ usageRatio c < 1 then
        .ok ({ success := true, message := "Sufficient credits available",
               remainingCredits := some c.remaining_credits },
             [NotificationKind.APPROACHING_LIMIT])
      else
        .ok ({ success := true, message := "Sufficient credits available",
               remainingCredits := some c.remaining_credits }, [])

/-! ### v1 crawl controller (`controllers/v1/crawl.ts`) -/

/-- The team policy flags the v1 crawl path reads. -/
structure TeamFlagsV1 where
  allowZDR : Bool
  forceZDR : Bool
deriving DecidableEq, Repr

/-- The parsed v1 crawl request body, restricted to the fields the controller
logic reads. `includePaths`/`excludePaths` are `none` when not an array
(the `Array.isArray` guard). -/
structure CrawlBody where
  zeroDataRetention : Bool
  includePaths : Option (List String)
  excludePaths : Option (List String)
  limit : ℚ
  maxConcurrency : Option ℚ
  delay : Option ℚ
deriving DecidableEq, Repr

/-- The stored crawl record, restricted to the fields the claims inspect. -/
structure StoredCrawl where
  limit : ℚ
  maxConcurrency : Option ℚ
  delay : Option ℚ
  robots : Option String
  zeroDataRetention : Bool
deriving DecidableEq, Repr

/-- A persisted side effect of the crawl controller. -/
inductive CrawlEffect
  | logCrawl
  | saveCrawl (sc : StoredCrawl)
  | enqueueKickoff (priority : Nat)
deriving DecidableEq, Repr

/-- The v1 crawl HTTP response, reduced to status / success / error message. -/
structure CrawlResponseOut where
  status : Nat
  success : Bool
  error : Option String
deriving DecidableEq, Repr

/-- First regex-compilation error among a list of patterns, in array order.
`rxErr p = some m` means `new RegExp(p)` throws with message `m`. -/
def firstRegexErrorIn (rxErr : String → Option String) : List String → Option String
  | [] => none
  | p :: ps =>
    match rxErr p with
    | some m => some m
    | none => firstRegexErrorIn rxErr ps

/-- The regex check applied to an optional pattern array (skipped when the
field is not an array). -/
def firstRegexError (rxErr : String → Option String) : Option (List String) → Option String
  | none => none
  | some l => firstRegexErrorIn rxErr l

/-- Shallow embedding of `crawlController` (`controllers/v1/crawl.ts`).
External values are inputs: `rxErr` the regex compiler oracle, `flags` and
`concurrency` from the auth chunk (`req.acuc`), `accountRemaining` the
flattened `req.account?.remainingCredits`, `useDbAuth` the
`USE_DB_AUTHENTICATION === "true"` check, and `robots` the
`getRobotsTxt` outcome (robots body and crawl delay; `Except.error` when the
fetch threw). Returns the response and the ordered effect list. -/
def crawlController (rxErr : String → Option String) (flags : TeamFlagsV1)
    (concurrency : Option ℚ) (accountRemaining : Option ℚ) (useDbAuth : Bool)
    (robots : Except Unit (String × Option ℚ)) (body : CrawlBody) :
    CrawlResponseOut × List CrawlEffect :=
  if body.zeroDataRetention && !flags.allowZDR then
    ({ status := 400, success := false,
       error := some "Zero data retention is enabled for this team." }, [])
  else
    let zeroDataRetention := flags.forceZDR || body.zeroDataRetention
    let remainingCredits : Option ℚ := if useDbAuth then accountRemaining else none
    match firstRegexError rxErr body.includePaths with
    | some m => ({ status := 400, success := false, error := some m }, [.logCrawl])
    | none =>
      match firstRegexError rxErr body.excludePaths with
      | some m => ({ status := 400, success := false, error := some m }, [.logCrawl])
      | none =>
        let clampedLimit : ℚ :=
          match remainingCredits with
          | some r => min r body.limit
          | none => body.limit
        let sc : StoredCrawl :=
          { limit := clampedLimit,
            maxConcurrency :=
              match body.maxConcurrency with
              | some m =>
                some (match concurrency with
                      | some c => min m c
                      | none => m)
              | none => none,
            delay := body.delay,
            robots := none,
            zeroDataRetention := zeroDataRetention }
        let sc2 : StoredCrawl :=
          match robots with
          | .ok (txt, rd) =>
            { sc with
              robots := some txt,
              delay :=
                match rd, sc.delay with
                | some d, none => some d
                | _, existing => existing }
          | .error _ => sc
        ({ status := 200, success := true, error := none },
         [.logCrawl, .saveCrawl sc2, .enqueueKickoff 10])

/-- The first `saveCrawl` effect of an effect list, if any. -/
def savedCrawl : List CrawlEffect → Option StoredCrawl
  | [] => none
  | .saveCrawl sc :: _ => some sc
  | _ :: es => savedCrawl es

/-! ### Progress streamer poll loop (`crawlStatusWS`) -/

/-- Queue job states as `queue.getJobState` reports them. -/
inductive QJobState
  | completed
  | failed
  | active
  | waiting
  | prioritized
  | unknown
deriving DecidableEq, Repr

/-- The environment one poll iteration observes: the crawl's child job ids
(`getCrawlJobs`, a set), each job's queue state, and whether `getJob` yields
a job with a truthy `returnvalue` (a document frame is sent only then). -/
structure PollInput where
  jobIDs : List String
  jstate : String → QJobState
  hasDoc : String → Bool

/-- The ids a poll iteration newly observes as terminal: ids not already in
the session-local `doneJobIDs`, whose state is `completed` or `failed`. -/
def pollNewlyDone (done : List String) (it : PollInput) : List String :=
  (it.jobIDs.filter (fun x => !done.contains x)).filter
    (fun x => it.jstate x == QJobState.completed || it.jstate x == QJobState.failed)

/-- Shallow embedding of the streamer's poll loop body, iterated over a trace
of observed environments. Each iteration first closes the session when
`jobIDs.length == doneJobIDs.length`; otherwise it sends a document frame for
every newly-done job with a return value and appends the newly-done ids to
`doneJobIDs`. Returns the per-iteration lists of job ids whose document was
sent. -/
def runPolls (done : List String) : List PollInput → List (List String)
  | [] => []
  | it :: its =>
    if it.jobIDs.length == done.length then []
    else
      let newlyDone := pollNewlyDone done it
      newlyDone.filter it.hasDoc :: runPolls (done ++ newlyDone) its

/-! ### Helper lemmas -/

/-- Does a helper outcome satisfy "success implies return code 200"? -/
def okSuccess200 : Except JsError ScrapeResult → Bool
  | .ok r => !r.success || r.returnCode == 200
  | .error _ => true

/-- Every `scrapeHelper` outcome satisfies `okSuccess200`: a result with
`success = true` carries return code 200; in particular a 408 timeout result
always has `success = false`. -/
theorem scrapeHelper_ok_success_200 (blocked : Bool) (parse : UrlParseOutcome)
    (po : V0PageOptions) (eo : V0ExtractorOptions) (wait : WaitOutcome) (tl : Doc → Doc) :
    okSuccess200 (scrapeHelper blocked parse po eo wait tl) = true := by
  cases parse with
  | throwsZod => rfl
  | nonString => rfl
  | ok u =>
    cases blocked with
    | true => rfl
    | false =>
      cases wait with
      | resolved doc => cases doc <;> rfl
      | rejected e =>
        cases e with
        | zodError => rfl
        | otherErr => rfl
        | errorObj msg =>
          by_cases hc : (strStarts msg "Job wait" || msg == "timeout") = true
          · simp [scrapeHelper, okSuccess200, hc]
          · simp [scrapeHelper, okSuccess200, hc]
        | stringErr s =>
          by_cases hc : (strHas s "Error generating completions: " ||
              strHas s "Invalid schema for function" ||
              strHas s "LLM extraction did not match the extraction schema you provided.") = true
          · simp [scrapeHelper, okSuccess200, hc]
          · simp [scrapeHelper, okSuccess200, hc]

/-- Consequence used for billing: an `.ok` result of `scrapeHelper` with
return code 408 has `success = false`. -/
theorem scrapeHelper_timeout_not_success (blocked : Bool) (parse : UrlParseOutcome)
    (po : V0PageOptions) (eo : V0ExtractorOptions) (wait : WaitOutcome) (tl : Doc → Doc)
    (r : ScrapeResult) (h : scrapeHelper blocked parse po eo wait tl = .ok r)
    (hc : r.returnCode = 408) : r.success = false := by
  have hk := scrapeHelper_ok_success_200 blocked parse po eo wait tl
  rw [h] at hk
  simp only [okSuccess200] at hk
  rw [hc] at hk
  simpa using hk

/-! ### Claim C1 -/

/-- The wait-failure dispatch as the amended claim C1 states it: a timeout
`Error` (message starting "Job wait" or equal to "timeout") yields
408 "Request timed out"; a string error containing one of the LLM substrings
("Error generating completions: ", "Invalid schema for function",
"LLM extraction did not match the extraction schema you provided.") yields
500 carrying the string; any other error propagates. -/
def c1SpecWaitDispatch (e : JsError) : Except JsError ScrapeResult :=
  match e with
  | .errorObj msg =>
    if strStarts msg "Job wait" || msg == "timeout" then
      .ok { success := false, error := some "Request timed out", data := none,
            returnCode := 408 }
    else .error (.errorObj msg)
  | .stringErr s =>
    if strHas s "Error generating completions: " ||
        strHas s "Invalid schema for function" ||
        strHas s "LLM extraction did not match the extraction schema you provided." then
      .ok { success := false, error := some s, data := none, returnCode := 500 }
    else .error (.stringErr s)
  | e => .error e

/-- C1 (counterexample to the claim as stated): the wait error string
"LLM extraction did not match the extraction schema" contains the claim's
third LLM substring (it is that substring), yet `scrapeHelper` re-throws it
instead of returning the claimed `{success: false, returnCode: 500}`:
the code matches the longer sentence ending "... you provided.". -/
theorem c1_claim_counterexample :
    strHas "LLM extraction did not match the extraction schema"
      "LLM extraction did not match the extraction schema" = true ∧
    scrapeHelper false (.ok "https://example.com")
      ⟨false, false, false, true⟩ ⟨"llm-extraction", true⟩
      (.rejected (.stringErr "LLM extraction did not match the extraction schema")) id
      = .error (.stringErr "LLM extraction did not match the extraction schema") ∧
    scrapeHelper false (.ok "https://example.com")
      ⟨false, false, false, true⟩ ⟨"llm-extraction", true⟩
      (.rejected (.stringErr "LLM extraction did not match the extraction schema")) id
      ≠ .ok { success := false,
              error := some "LLM extraction did not match the extraction schema",
              data := none, returnCode := 500 } := by
  refine ⟨by decide, by decide, by decide⟩

/-- C1 (amended): for every v0 scrape request that reaches the
wait-for-completion step, the wait-failure handling of `scrapeHelper` is
exactly `c1SpecWaitDispatch`: timeout Errors give 408 "Request timed out",
string errors containing one of the three LLM substrings (the third being the
full "LLM extraction did not match the extraction schema you provided.") give
500 with the string, and every other error is re-thrown. -/
theorem c1_wait_error_dispatch (u : String) (po : V0PageOptions)
    (eo : V0ExtractorOptions) (tl : Doc → Doc) (e : JsError) :
    scrapeHelper false (.ok u) po eo (.rejected e) tl = c1SpecWaitDispatch e := by
  cases e <;> simp [scrapeHelper, c1SpecWaitDispatch]

/-! ### Claim C2 -/

/-- C2 (counterexample to the claim as stated): a non-preview team whose
chunk has `adjusted_credits_used = 85`, `total_credits_sum = 100` (so the
usage ratio 0.85 lies in [0.8, 1)) checked for 20 credits is DENIED
(85 + 20 > 100), with no notification — the claim's "when
0.8 ≤ adjusted_credits_used / total < 1 the check still admits and sends an
APPROACHING_LIMIT notification" fails: the 0.8-branch is only reached when
the request is not denied. -/
theorem c2_claim_counterexample :
    (usageRatio ⟨85, 15, some 100, false⟩ ≥ 0.8 ∧ usageRatio ⟨85, 15, some 100, false⟩ < 1) ∧
    supaCheckTeamCredits ⟨false, 1000⟩ ⟨false, "no recharge", 0⟩
      (some ⟨85, 15, some 100, false⟩) "team1" 20
      = .ok ({ success := false, message := insufficientCreditsMessage,
               remainingCredits := some 15 }, []) := by
  constructor
  · constructor <;> norm_num [usageRatio, totalOf]
  · unfold supaCheckTeamCredits
    rw [show ("team1" == "preview" || strStarts "team1" "preview_" ||
        strStarts "team1" "env_") = false from by decide]
    norm_num [totalOf]

/-- C2 (amended): for every credit check on a non-preview, non-env team with
a non-null chunk, when the auto-recharge branch does not return early: the
check denies (with the upgrade-URL message) iff
`adjusted_credits_used + credits > totalOf chunk`; within the deny case a
LIMIT_REACHED notification is sent exactly when `adjusted_credits_used`
alone already exceeds the total; and when the request is NOT denied and
0.8 ≤ usage ratio < 1 the check admits and sends APPROACHING_LIMIT. -/
theorem c2_credit_gate (cfg : RechargeConfig) (ac : AutoChargeOutcome) (c : CreditChunk)
    (team_id : String) (credits : ℚ) (r : CreditCheckResult) (notifs : List NotificationKind)
    (hteam : (team_id == "preview" || strStarts team_id "preview_" ||
      strStarts team_id "env_") = false)
    (hnr : (cfg.enabled && decide (c.remaining_credits < cfg.threshold) && !c.is_extract &&
      ac.success) = false)
    (heq : supaCheckTeamCredits cfg ac (some c) team_id credits = .ok (r, notifs)) :
    (r.success = false ↔ c.adjusted_credits_used + credits > totalOf c) ∧
    (r.success = false → strHas r.message "https://firecrawl.dev/pricing" = true) ∧
    (r.success = false →
      (NotificationKind.LIMIT_REACHED ∈ notifs ↔ c.adjusted_credits_used > totalOf c)) ∧
    (c.adjusted_credits_used + credits ≤ totalOf c → usageRatio c ≥ 0.8 → usageRatio c < 1 →
      r.success = true ∧ notifs = [NotificationKind.APPROACHING_LIMIT]) := by
  unfold supaCheckTeamCredits at heq
  rw [hteam] at heq
  simp only [Bool.false_eq_true, if_false] at heq
  rw [hnr] at heq
  simp only [Bool.false_eq_true, if_false] at heq
  split at heq
  case isTrue hgt =>
    injection heq with heq2
    injection heq2 with hr hn
    subst hr
    subst hn
    refine ⟨⟨fun _ => hgt, fun _ => rfl⟩,
      fun _ => by
        show strHas insufficientCreditsMessage "https://firecrawl.dev/pricing" = true
        decide,
      fun _ => ?_, fun hle _ _ => ?_⟩
    · by_cases hl : c.adjusted_credits_used > totalOf c
      · simp [hl]
      · simp [hl]
    · exact absurd hgt (not_lt.mpr hle)
  case isFalse hgt =>
    split at heq
    case isTrue hp =>
      injection heq with heq2
      injection heq2 with hr hn
      subst hr
      subst hn
      refine ⟨⟨fun h => by simp at h, fun h => absurd h hgt⟩, fun h => by simp at h,
        fun h => by simp at h, fun _ _ _ => ⟨rfl, rfl⟩⟩
    case isFalse hp =>
      injection heq with heq2
      injection heq2 with hr hn
      subst hr
      subst hn
      refine ⟨⟨fun h => by simp at h, fun h => absurd h hgt⟩, fun h => by simp at h,
        fun h => by simp at h, fun _ h2 h3 => absurd ⟨h2, h3⟩ hp⟩

/-- C2 witness: the amended theorem applied at a concrete admissible input
(used 50 of 100, 10 more requested: admitted, ratio 0.5, no notification). -/
theorem c2_credit_gate_witness :
    ((("team1" == "preview" || strStarts "team1" "preview_" ||
        strStarts "team1" "env_") = false) ∧
      supaCheckTeamCredits ⟨false, 1000⟩ ⟨false, "no recharge", 0⟩
        (some ⟨50, 50, some 100, false⟩) "team1" 10
        = .ok ({ success := true, message := "Sufficient credits available",
                 remainingCredits := some 50 }, [])) ∧
    (({ success := true, message := "Sufficient credits available",
        remainingCredits := some 50 : CreditCheckResult }.success = false ↔
      (50 : ℚ) + 10 > totalOf ⟨50, 50, some 100, false⟩) ∧
      (50 : ℚ) + 10 ≤ totalOf ⟨50, 50, some 100, false⟩) := by
  have heq : supaCheckTeamCredits ⟨false, 1000⟩ ⟨false, "no recharge", 0⟩
      (some ⟨50, 50, some 100, false⟩) "team1" 10
      = .ok ({ success := true, message := "Sufficient credits available",
               remainingCredits := some 50 }, []) := by
    unfold supaCheckTeamCredits
    rw [show ("team1" == "preview" || strStarts "team1" "preview_" ||
        strStarts "team1" "env_") = false from by decide]
    norm_num [totalOf, usageRatio]
  refine ⟨⟨by decide, heq⟩, ?_, by norm_num [totalOf]⟩
  exact (c2_credit_gate ⟨false, 1000⟩ ⟨false, "no recharge", 0⟩ ⟨50, 50, some 100, false⟩
    "team1" 10 _ _ (by decide) (by simp) heq).1

/-! ### Evaluation of `scrapeController` past the pre-checks -/

/-- When auth succeeds, `forceZDR` is off, the LLM schema check passes, the
credit check admits, and `scrapeHelper` returns `.ok r`, the controller
responds with the stripped result and bills 5 credits (1 base + 4) in
LLM-extraction mode, else 1, exactly when `r.success`. -/
theorem scrapeController_run (inp : V0ControllerInput) (tl : Doc → Doc) (r : ScrapeResult)
    (hauth : inp.authSuccess = true) (hzdr : inp.forceZDR = false)
    (hschema : (strHas inp.extractorOptions.mode "llm-extraction" &&
      !inp.extractorOptions.schemaIsObject) = false)
    (hcred : inp.creditCheck = .ok true)
    (hres : scrapeHelper inp.blocked inp.parse inp.pageOptions inp.extractorOptions
      inp.wait tl = .ok r) :
    scrapeController inp tl =
      { status := (stripFinal inp.pageOptions r).returnCode,
        body := .resultBody (stripFinal inp.pageOptions r),
        billing := if r.success then
            [if strHas inp.extractorOptions.mode "llm-extraction" then 5 else 1]
          else [],
        billingFailureLogged := inp.billingRejects && r.success } := by
  unfold scrapeController
  rw [hauth, hzdr, hcred, hres]
  simp only [Bool.not_true, Bool.false_eq_true, if_false, hschema]
  by_cases hm : strHas inp.extractorOptions.mode "llm-extraction" = true <;>
    by_cases hs : r.success = true <;>
      simp [hm, hs]

/-! ### Claim C3 -/

/-- C3: in the v0 scrape controller (auth ok, no forced ZDR, schema check
passed, credit check admitted), `billTeam` is invoked iff `scrapeHelper`
returned `success = true`, and then with exactly 1 credit, or 5 = 1 + 4 when
the extractor mode contains "llm-extraction"; on a 408 timeout result no
billing call is made; and a rejected billing promise never changes the HTTP
response (status and body are independent of `billingRejects`). -/
theorem c3_billing (inp : V0ControllerInput) (tl : Doc → Doc) (r : ScrapeResult)
    (hauth : inp.authSuccess = true) (hzdr : inp.forceZDR = false)
    (hschema : (strHas inp.extractorOptions.mode "llm-extraction" &&
      !inp.extractorOptions.schemaIsObject) = false)
    (hcred : inp.creditCheck = .ok true)
    (hres : scrapeHelper inp.blocked inp.parse inp.pageOptions inp.extractorOptions
      inp.wait tl = .ok r) :
    ((scrapeController inp tl).billing =
      if r.success then
        [if strHas inp.extractorOptions.mode "llm-extraction" then 5 else 1]
      else []) ∧
    (r.returnCode = 408 → (scrapeController inp tl).billing = []) ∧
    ((scrapeController { inp with billingRejects := true } tl).status =
      (scrapeController { inp with billingRejects := false } tl).status ∧
     (scrapeController { inp with billingRejects := true } tl).body =
      (scrapeController { inp with billingRejects := false } tl).body) := by
  have h1 := scrapeController_run inp tl r hauth hzdr hschema hcred hres
  have h2 := scrapeController_run { inp with billingRejects := true } tl r hauth hzdr
    hschema hcred hres
  have h3 := scrapeController_run { inp with billingRejects := false } tl r hauth hzdr
    hschema hcred hres
  refine ⟨by rw [h1], fun hc => ?_, by rw [h2, h3], by rw [h2, h3]⟩
  have hs := scrapeHelper_timeout_not_success inp.blocked inp.parse inp.pageOptions
    inp.extractorOptions inp.wait tl r hres hc
  rw [h1]
  simp [hs]

/-- C3 witness: a run with the helper succeeding in LLM-extraction mode is
billed 5 credits, and the response ignores `billingRejects`. -/
theorem c3_billing_witness :
    (scrapeHelper false (.ok "https://example.com") ⟨false, false, false, true⟩
        ⟨"llm-extraction", true⟩ (.resolved none) id
      = .ok { success := true, error := some "No page found", data := none,
              returnCode := 200 }) ∧
    (scrapeController
        { authSuccess := true, authStatus := 200, authError := "", forceZDR := false,
          pageOptions := ⟨false, false, false, true⟩,
          extractorOptions := ⟨"llm-extraction", true⟩, creditCheck := .ok true,
          blocked := false, parse := .ok "https://example.com", wait := .resolved none,
          billingRejects := false } id).billing =
      if ({ success := true, error := some "No page found", data := none,
            returnCode := 200 : ScrapeResult }).success then
        [if strHas "llm-extraction" "llm-extraction" then 5 else 1]
      else [] := by
  refine ⟨rfl, ?_⟩
  exact (c3_billing
    { authSuccess := true, authStatus := 200, authError := "", forceZDR := false,
      pageOptions := ⟨false, false, false, true⟩,
      extractorOptions := ⟨"llm-extraction", true⟩, creditCheck := .ok true,
      blocked := false, parse := .ok "https://example.com", wait := .resolved none,
      billingRejects := false } id
    { success := true, error := some "No page found", data := none, returnCode := 200 }
    rfl rfl (by decide) rfl rfl).1

/-! ### Claim C8 -/

/-- A v0 scrape request reaching `scrapeHelper` whose body url fails URL
validation (`urlSchema.parse` throws). -/
def c8Input : V0ControllerInput :=
  { authSuccess := true, authStatus := 200, authError := "", forceZDR := false,
    pageOptions := ⟨false, false, false, true⟩,
    extractorOptions := ⟨"markdown", true⟩, creditCheck := .ok true,
    blocked := false, parse := .throwsZod, wait := .resolved none,
    billingRejects := false }

/-- C8 (counterexample to the claim as stated): for a request whose body url
is invalid (the url schema throws a `ZodError`), the controller's catch-all
maps the `ZodError` to HTTP 500 with error "Invalid URL" — not the claimed
400. -/
theorem c8_claim_counterexample :
    (scrapeController c8Input id).status = 500 ∧
    (scrapeController c8Input id).body = .errorBody "Invalid URL" ∧
    (scrapeController c8Input id).status ≠ 400 := by
  refine ⟨rfl, rfl, by decide⟩

/-- C8 (amended): for every v0 scrape request that passes the pre-checks and
whose body url is invalid input (URL parsing throws a `ZodError`), the HTTP
response status is 500 with the error message "Invalid URL". -/
theorem c8_invalid_url (inp : V0ControllerInput) (tl : Doc → Doc)
    (hauth : inp.authSuccess = true) (hzdr : inp.forceZDR = false)
    (hschema : (strHas inp.extractorOptions.mode "llm-extraction" &&
      !inp.extractorOptions.schemaIsObject) = false)
    (hcred : inp.creditCheck = .ok true)
    (hparse : inp.parse = .throwsZod) :
    (scrapeController inp tl).status = 500 ∧
    (scrapeController inp tl).body = .errorBody "Invalid URL" := by
  unfold scrapeController
  rw [hauth, hzdr, hcred, hparse]
  simp only [Bool.not_true, Bool.false_eq_true, if_false, hschema, scrapeHelper]
  simp

/-- C8 witness: the amended theorem applied at the concrete invalid-url
request `c8Input`. -/
theorem c8_invalid_url_witness :
    (c8Input.authSuccess = true ∧ c8Input.parse = .throwsZod) ∧
    ((scrapeController c8Input id).status = 500 ∧
      (scrapeController c8Input id).body = .errorBody "Invalid URL") :=
  ⟨⟨rfl, rfl⟩, c8_invalid_url c8Input id rfl rfl (by decide) rfl rfl⟩

/-! ### Claim C10 -/

/-- C10: if the wait resolves without error but yields a falsy document,
`scrapeHelper` returns `success = true`, return code 200, error
"No page found" and no data; the field-stripping steps are skipped (the
result carries `data = none` unchanged), and because `success` is true the
controller proceeds to bill credits for the request. -/
theorem c10_no_page (inp : V0ControllerInput) (tl : Doc → Doc) (u : String)
    (hauth : inp.authSuccess = true) (hzdr : inp.forceZDR = false)
    (hschema : (strHas inp.extractorOptions.mode "llm-extraction" &&
      !inp.extractorOptions.schemaIsObject) = false)
    (hcred : inp.creditCheck = .ok true)
    (hblock : inp.blocked = false) (hparse : inp.parse = .ok u)
    (hwait : inp.wait = .resolved none) :
    (scrapeHelper inp.blocked inp.parse inp.pageOptions inp.extractorOptions inp.wait tl
      = .ok { success := true, error := some "No page found", data := none,
              returnCode := 200 }) ∧
    (scrapeController inp tl).status = 200 ∧
    (scrapeController inp tl).body =
      .resultBody { success := true, error := some "No page found", data := none,
                    returnCode := 200 } ∧
    (scrapeController inp tl).billing ≠ [] := by
  have hres : scrapeHelper inp.blocked inp.parse inp.pageOptions inp.extractorOptions
      inp.wait tl
      = .ok { success := true, error := some "No page found", data := none,
              returnCode := 200 } := by
    rw [hblock, hparse, hwait]
    rfl
  have hrun := scrapeController_run inp tl _ hauth hzdr hschema hcred hres
  have hstrip : stripFinal inp.pageOptions
      { success := true, error := some "No page found", data := none, returnCode := 200 }
      = { success := true, error := some "No page found", data := none,
          returnCode := 200 } := by
    unfold stripFinal
    by_cases h1 : inp.pageOptions.includeRawHtml <;>
      by_cases h2 : inp.pageOptions.includeExtract <;>
        by_cases h3 : inp.pageOptions.includeMarkdown <;>
          simp [h1, h2, h3]
  rw [hrun, hstrip]
  refine ⟨hres, rfl, rfl, ?_⟩
  by_cases hm : strHas inp.extractorOptions.mode "llm-extraction" = true <;> simp [hm]

/-- C10 witness: the theorem applied at a concrete request whose wait
resolves with a falsy document. -/
theorem c10_no_page_witness :
    (scrapeHelper false (.ok "https://example.com") ⟨true, true, false, true⟩
        ⟨"markdown", true⟩ (.resolved none) id
      = .ok { success := true, error := some "No page found", data := none,
              returnCode := 200 }) ∧
    (scrapeController
        { authSuccess := true, authStatus := 200, authError := "", forceZDR := false,
          pageOptions := ⟨true, true, false, true⟩,
          extractorOptions := ⟨"markdown", true⟩, creditCheck := .ok true,
          blocked := false, parse := .ok "https://example.com", wait := .resolved none,
          billingRejects := false } id).billing ≠ [] := by
  have h := c10_no_page
    { authSuccess := true, authStatus := 200, authError := "", forceZDR := false,
      pageOptions := ⟨true, true, false, true⟩,
      extractorOptions := ⟨"markdown", true⟩, creditCheck := .ok true,
      blocked := false, parse := .ok "https://example.com", wait := .resolved none,
      billingRejects := false } id "https://example.com"
    rfl rfl (by decide) rfl rfl rfl rfl
  exact ⟨h.1, h.2.2.2⟩

/-! ### Regex-check characterization -/

/-- The sequential early-return regex loop returns the error of the first
entry whose compilation fails. -/
theorem firstRegexErrorIn_eq_find (rxErr : String → Option String) (l : List String) :
    firstRegexErrorIn rxErr l = (l.find? (fun p => (rxErr p).isSome)).bind rxErr := by
  induction l with
  | nil => rfl
  | cons p ps ih =>
    unfold firstRegexErrorIn
    cases h : rxErr p with
    | some m =>
      rw [List.find?_cons_of_pos _ (by simp [h])]
      simp [h]
    | none =>
      rw [List.find?_cons_of_neg _ (by simp [h])]
      exact ih

/-- The regex loop over a concatenation: include-paths checked before
exclude-paths. -/
theorem firstRegexErrorIn_append (rxErr : String → Option String) (l1 l2 : List String) :
    firstRegexErrorIn rxErr (l1 ++ l2) =
      match firstRegexErrorIn rxErr l1 with
      | some m => some m
      | none => firstRegexErrorIn rxErr l2 := by
  induction l1 with
  | nil => rfl
  | cons p ps ih =>
    have e1 : firstRegexErrorIn rxErr ((p :: ps) ++ l2) =
        match rxErr p with
        | some m => some m
        | none => firstRegexErrorIn rxErr (ps ++ l2) := rfl
    have e2 : firstRegexErrorIn rxErr (p :: ps) =
        match rxErr p with
        | some m => some m
        | none => firstRegexErrorIn rxErr ps := rfl
    rw [e1, e2]
    cases h : rxErr p with
    | some m => simp
    | none => simpa using ih

/-- When the regex loop reports no error, every entry compiles. -/
theorem firstRegexErrorIn_none (rxErr : String → Option String) (l : List String)
    (h : firstRegexErrorIn rxErr l = none) : ∀ p ∈ l, rxErr p = none := by
  induction l with
  | nil => simp
  | cons q qs ih =>
    intro p hp
    unfold firstRegexErrorIn at h
    cases hq : rxErr q with
    | some m => rw [hq] at h; exact absurd h (by simp)
    | none =>
      rw [hq] at h
      rcases List.mem_cons.mp hp with hqq | hmem
      · rw [hqq]; exact hq
      · exact ih h p hmem

/-- `firstRegexError` over the optional array equals the loop over
`getD []`. -/
theorem firstRegexError_getD (rxErr : String → Option String) (o : Option (List String)) :
    firstRegexError rxErr o = firstRegexErrorIn rxErr (o.getD []) := by
  cases o <;> rfl

/-! ### Claim C4 -/

/-- C4: a v1 crawl request with `zeroDataRetention = true` from a team whose
flags lack `allowZDR` is rejected with HTTP 400 and an explanatory error, and
no crawl record is persisted (`saveCrawl` is never called — the effect list
is empty). -/
theorem c4_zdr_rejected (rxErr : String → Option String) (flags : TeamFlagsV1)
    (concurrency : Option ℚ) (accountRemaining : Option ℚ) (useDbAuth : Bool)
    (robots : Except Unit (String × Option ℚ)) (body : CrawlBody)
    (hz : body.zeroDataRetention = true) (hf : flags.allowZDR = false) :
    (crawlController rxErr flags concurrency accountRemaining useDbAuth robots body).1.status
      = 400 ∧
    (crawlController rxErr flags concurrency accountRemaining useDbAuth robots
      body).1.error.isSome = true ∧
    savedCrawl
      (crawlController rxErr flags concurrency accountRemaining useDbAuth robots body).2
      = none := by
  unfold crawlController
  rw [hz, hf]
  simp [savedCrawl]

/-- C4 witness: the theorem applied at a concrete ZDR request against a team
without `allowZDR`. -/
theorem c4_zdr_rejected_witness :
    (crawlController (fun _ => none) ⟨false, false⟩ none none false (.error ())
      ⟨true, none, none, 10, none, none⟩).1.status = 400 ∧
    savedCrawl (crawlController (fun _ => none) ⟨false, false⟩ none none false (.error ())
      ⟨true, none, none, 10, none, none⟩).2 = none := by
  have h := c4_zdr_rejected (fun _ => none) ⟨false, false⟩ none none false (.error ())
    ⟨true, none, none, 10, none, none⟩ rfl rfl
  exact ⟨h.1, h.2.2⟩

/-! ### Evaluation of the admitted v1 crawl path -/

/-- When the ZDR check and both regex checks pass, the controller responds
200 and persists one crawl record whose `limit` is the clamped limit and
whose `maxConcurrency` follows the source's conditional. -/
theorem crawlController_admitted (rxErr : String → Option String) (flags : TeamFlagsV1)
    (concurrency : Option ℚ) (accountRemaining : Option ℚ) (useDbAuth : Bool)
    (robots : Except Unit (String × Option ℚ)) (body : CrawlBody)
    (hz : (body.zeroDataRetention && !flags.allowZDR) = false)
    (hinc : firstRegexError rxErr body.includePaths = none)
    (hexc : firstRegexError rxErr body.excludePaths = none) :
    (crawlController rxErr flags concurrency accountRemaining useDbAuth robots body).1 =
      { status := 200, success := true, error := none } ∧
    (savedCrawl (crawlController rxErr flags concurrency accountRemaining useDbAuth robots
        body).2).map StoredCrawl.limit =
      some (match (if useDbAuth then accountRemaining else none) with
            | some r => min r body.limit
            | none => body.limit) ∧
    (savedCrawl (crawlController rxErr flags concurrency accountRemaining useDbAuth robots
        body).2).map StoredCrawl.maxConcurrency =
      some (match body.maxConcurrency with
            | some m => some (match concurrency with
                             | some c => min m c
                             | none => m)
            | none => none) := by
  unfold crawlController
  rw [hz, hinc, hexc]
  cases robots with
  | ok pr => cases pr with | mk txt rd => simp [savedCrawl]
  | error u => simp [savedCrawl]

/-! ### Claim C5 -/

/-- C5: if any entry of `includePaths` or `excludePaths` fails to compile,
the v1 crawl controller responds 400 with the compilation error message of
the first failing entry — include-paths checked before exclude-paths, in
array order (the first failing entry of the concatenated pattern list) — and
no crawl record is persisted. -/
theorem c5_regex_rejection (rxErr : String → Option String) (flags : TeamFlagsV1)
    (concurrency : Option ℚ) (accountRemaining : Option ℚ) (useDbAuth : Bool)
    (robots : Except Unit (String × Option ℚ)) (body : CrawlBody)
    (hz : (body.zeroDataRetention && !flags.allowZDR) = false)
    (hfail : ∃ p, (p ∈ body.includePaths.getD [] ∨ p ∈ body.excludePaths.getD []) ∧
      rxErr p ≠ none) :
    (crawlController rxErr flags concurrency accountRemaining useDbAuth robots body).1.status
      = 400 ∧
    (crawlController rxErr flags concurrency accountRemaining useDbAuth robots body).1.error
      = ((body.includePaths.getD [] ++ body.excludePaths.getD []).find?
          (fun p => (rxErr p).isSome)).bind rxErr ∧
    savedCrawl
      (crawlController rxErr flags concurrency accountRemaining useDbAuth robots body).2
      = none := by
  rw [← firstRegexErrorIn_eq_find, firstRegexErrorIn_append]
  unfold crawlController
  rw [hz]
  simp only [Bool.false_eq_true, if_false]
  rw [firstRegexError_getD rxErr body.includePaths,
    firstRegexError_getD rxErr body.excludePaths]
  cases h1 : firstRegexErrorIn rxErr (body.includePaths.getD []) with
  | some m => simp [savedCrawl]
  | none =>
    cases h2 : firstRegexErrorIn rxErr (body.excludePaths.getD []) with
    | some m => simp [savedCrawl]
    | none =>
      exfalso
      obtain ⟨p, hp, hne⟩ := hfail
      rcases hp with hp | hp
      · exact hne (firstRegexErrorIn_none rxErr _ h1 p hp)
      · exact hne (firstRegexErrorIn_none rxErr _ h2 p hp)

/-- C5 witness: the theorem applied with a concrete failing exclude-path
pattern (the regex oracle fails on "["). -/
theorem c5_regex_rejection_witness :
    (crawlController (fun p => if p == "[" then some "bad regex" else none) ⟨false, false⟩
      none none false (.error ())
      ⟨false, some ["a"], some ["[", "b"], 10, none, none⟩).1.status = 400 ∧
    (crawlController (fun p => if p == "[" then some "bad regex" else none) ⟨false, false⟩
      none none false (.error ())
      ⟨false, some ["a"], some ["[", "b"], 10, none, none⟩).1.error = some "bad regex" ∧
    savedCrawl (crawlController (fun p => if p == "[" then some "bad regex" else none)
      ⟨false, false⟩ none none false (.error ())
      ⟨false, some ["a"], some ["[", "b"], 10, none, none⟩).2 = none := by
  have h := c5_regex_rejection (fun p => if p == "[" then some "bad regex" else none)
    ⟨false, false⟩ none none false (.error ())
    ⟨false, some ["a"], some ["[", "b"], 10, none, none⟩ rfl
    ⟨"[", Or.inr (by decide), by decide⟩
  refine ⟨h.1, ?_, h.2.2⟩
  rw [h.2.1]
  decide

/-! ### Claim C6 -/

/-- C6: for every admitted v1 crawl request, the stored crawl's limit equals
`min(remaining_credits, requested limit)`: with DB authentication and a
present `account.remainingCredits` it is `min` of that value and the
requested limit; otherwise (absent value, or DB auth off) the remaining
budget is infinite and the stored limit equals the requested limit. -/
theorem c6_limit_clamp (rxErr : String → Option String) (flags : TeamFlagsV1)
    (concurrency : Option ℚ) (accountRemaining : Option ℚ) (useDbAuth : Bool)
    (robots : Except Unit (String × Option ℚ)) (body : CrawlBody)
    (hz : (body.zeroDataRetention && !flags.allowZDR) = false)
    (hinc : firstRegexError rxErr body.includePaths = none)
    (hexc : firstRegexError rxErr body.excludePaths = none) :
    (useDbAuth = true → ∀ rc, accountRemaining = some rc →
      (savedCrawl (crawlController rxErr flags concurrency accountRemaining useDbAuth robots
        body).2).map StoredCrawl.limit = some (min rc body.limit)) ∧
    (useDbAuth = true → accountRemaining = none →
      (savedCrawl (crawlController rxErr flags concurrency accountRemaining useDbAuth robots
        body).2).map StoredCrawl.limit = some body.limit) ∧
    (useDbAuth = false →
      (savedCrawl (crawlController rxErr flags concurrency accountRemaining useDbAuth robots
        body).2).map StoredCrawl.limit = some body.limit) := by
  have h := (crawlController_admitted rxErr flags concurrency accountRemaining useDbAuth
    robots body hz hinc hexc).2.1
  refine ⟨fun hdb rc hrc => ?_, fun hdb hrc => ?_, fun hdb => ?_⟩
  · rw [h, hdb, hrc]; simp
  · rw [h, hdb, hrc]; simp
  · rw [h, hdb]; simp

/-- C6 witness: DB-auth mode with 50 remaining credits and a requested limit
of 1000 stores a crawl with limit 50. -/
theorem c6_limit_clamp_witness :
    (savedCrawl (crawlController (fun _ => none) ⟨false, false⟩ none (some 50) true
      (.error ()) ⟨false, none, none, 1000, none, none⟩).2).map StoredCrawl.limit
      = some 50 := by
  have h := (c6_limit_clamp (fun _ => none) ⟨false, false⟩ none (some 50) true (.error ())
    ⟨false, none, none, 1000, none, none⟩ rfl rfl rfl).1 rfl 50 rfl
  rw [h]
  norm_num [min_def]

/-! ### Claim C7 -/

/-- An admitted crawl request that sets no `maxConcurrency`. -/
def c7Body : CrawlBody :=
  { zeroDataRetention := false, includePaths := none, excludePaths := none,
    limit := 100, maxConcurrency := none, delay := none }

/-- C7 (counterexample to the claim as stated): when the request does not
specify `maxConcurrency` but the team has a concurrency cap of 5, the stored
crawl's `maxConcurrency` is absent — not the team cap, contradicting the
claim's "otherwise is whichever one of the two is present". -/
theorem c7_claim_counterexample :
    (savedCrawl (crawlController (fun _ => none) ⟨false, false⟩ (some 5) none false
      (.error ()) c7Body).2).map StoredCrawl.maxConcurrency = some none ∧
    (some (none : Option ℚ)) ≠ some (some (5 : ℚ)) := by
  exact ⟨rfl, by simp⟩

/-- C7 (amended): for every admitted v1 crawl request, the stored crawl's
`maxConcurrency` is the minimum of the request's `maxConcurrency` and the
team's concurrency cap when both are present; the request's value when only
the request specifies one; and absent whenever the request does not specify
one — even if the team has a cap. -/
theorem c7_max_concurrency (rxErr : String → Option String) (flags : TeamFlagsV1)
    (concurrency : Option ℚ) (accountRemaining : Option ℚ) (useDbAuth : Bool)
    (robots : Except Unit (String × Option ℚ)) (body : CrawlBody)
    (hz : (body.zeroDataRetention && !flags.allowZDR) = false)
    (hinc : firstRegexError rxErr body.includePaths = none)
    (hexc : firstRegexError rxErr body.excludePaths = none) :
    (∀ m c, body.maxConcurrency = some m → concurrency = some c →
      (savedCrawl (crawlController rxErr flags concurrency accountRemaining useDbAuth robots
        body).2).map StoredCrawl.maxConcurrency = some (some (min m c))) ∧
    (∀ m, body.maxConcurrency = some m → concurrency = none →
      (savedCrawl (crawlController rxErr flags concurrency accountRemaining useDbAuth robots
        body).2).map StoredCrawl.maxConcurrency = some (some m)) ∧
    (body.maxConcurrency = none →
      (savedCrawl (crawlController rxErr flags concurrency accountRemaining useDbAuth robots
        body).2).map StoredCrawl.maxConcurrency = some none) := by
  have h := (crawlController_admitted rxErr flags concurrency accountRemaining useDbAuth
    robots body hz hinc hexc).2.2
  refine ⟨fun m c hm hc => ?_, fun m hm hc => ?_, fun hm => ?_⟩
  · rw [h, hm, hc]
  · rw [h, hm, hc]
  · rw [h, hm]

/-- C7 witness: the amended theorem applied with a request value 3 and a team
cap 5, yielding a stored `maxConcurrency` of 3. -/
theorem c7_max_concurrency_witness :
    (savedCrawl (crawlController (fun _ => none) ⟨false, false⟩ (some 5) none false
      (.error ())
      ⟨false, none, none, 100, some 3, none⟩).2).map StoredCrawl.maxConcurrency
      = some (some 3) := by
  have h := (c7_max_concurrency (fun _ => none) ⟨false, false⟩ (some 5) none false
    (.error ()) ⟨false, none, none, 100, some 3, none⟩ rfl rfl rfl).1 3 5 rfl rfl
  rw [h]
  norm_num [min_def]

/-! ### Claim C9 -/

/-- A job id already recorded as done is never observed as newly done. -/
theorem not_mem_pollNewlyDone (done : List String) (it : PollInput) (j : String)
    (hj : j ∈ done) : j ∉ pollNewlyDone done it := by
  intro hmem
  unfold pollNewlyDone at hmem
  have h1 := (List.mem_filter.mp hmem).1
  have h2 := (List.mem_filter.mp h1).2
  simp at h2
  exact h2 hj

/-- Once a job id is in the session-local done list, no later poll iteration
ever sends a document frame for it: the done list only grows. -/
theorem runPolls_count_done (its : List PollInput) (done : List String) (j : String)
    (hj : j ∈ done) : ((runPolls done its).flatten).count j = 0 := by
  induction its generalizing done with
  | nil => simp [runPolls]
  | cons it its ih =>
    unfold runPolls
    split
    · simp
    · rw [List.flatten_cons, List.count_append]
      have hsent : j ∉ (pollNewlyDone done it).filter it.hasDoc := by
        intro hmem
        exact not_mem_pollNewlyDone done it j hj (List.mem_filter.mp hmem).1
      rw [List.count_eq_zero.mpr hsent,
        ih (done ++ pollNewlyDone done it) (List.mem_append_left _ hj)]

/-- C9: within one progress-streamer session, for every child job id, at most
one document frame carrying that job's return value is ever sent by the poll
loop: each iteration only considers ids not already in the session-local
`doneJobIDs` list, and every id observed as completed or failed is appended
to that list before the next iteration. (`getCrawlJobs` reads a set, so each
iteration's job-id list is duplicate-free.) -/
theorem c9_document_at_most_once (done₀ : List String) (its : List PollInput) (j : String)
    (hnd : ∀ it ∈ its, it.jobIDs.Nodup) :
    ((runPolls done₀ its).flatten).count j ≤ 1 := by
  induction its generalizing done₀ with
  | nil => simp [runPolls]
  | cons it its ih =>
    unfold runPolls
    split
    · simp
    · rw [List.flatten_cons, List.count_append]
      by_cases hj : j ∈ pollNewlyDone done₀ it
      · have hrest : ((runPolls (done₀ ++ pollNewlyDone done₀ it) its).flatten).count j = 0 :=
          runPolls_count_done its _ j (List.mem_append_right _ hj)
        have hnodup : ((pollNewlyDone done₀ it).filter it.hasDoc).Nodup := by
          have h0 : it.jobIDs.Nodup := hnd it (List.mem_cons_self it its)
          exact ((h0.filter _).filter _).filter _
        have hsent : ((pollNewlyDone done₀ it).filter it.hasDoc).count j ≤ 1 :=
          List.nodup_iff_count_le_one.mp hnodup j
        omega
      · have hsent : ((pollNewlyDone done₀ it).filter it.hasDoc).count j = 0 := by
          refine List.count_eq_zero.mpr fun hmem => ?_
          exact hj (List.mem_filter.mp hmem).1
        have hrest := ih (done₀ ++ pollNewlyDone done₀ it)
          (fun x hx => hnd x (List.mem_cons_of_mem it hx))
        omega

/-- C9 witness: a concrete two-iteration trace over duplicate-free job sets
in which job "a" completes in the first iteration; its document is counted
once. -/
theorem c9_document_at_most_once_witness :
    (∀ it ∈ [PollInput.mk ["a", "b"] (fun _ => QJobState.completed) (fun _ => true),
             PollInput.mk ["a", "b"] (fun _ => QJobState.completed) (fun _ => true)],
      it.jobIDs.Nodup) ∧
    ((runPolls []
      [PollInput.mk ["a", "b"] (fun _ => QJobState.completed) (fun _ => true),
       PollInput.mk ["a", "b"] (fun _ => QJobState.completed) (fun _ => true)]).flatten).count
      "a" ≤ 1 := by
  constructor
  · intro it hit
    rcases List.mem_cons.mp hit with h | h
    · rw [h]; decide
    · rcases List.mem_cons.mp h with h2 | h2
      · rw [h2]; decide
      · simp at h2
  · exact c9_document_at_most_once []
      [PollInput.mk ["a", "b"] (fun _ => QJobState.completed) (fun _ => true),
       PollInput.mk ["a", "b"] (fun _ => QJobState.completed) (fun _ => true)] "a"
      (by
        intro it hit
        rcases List.mem_cons.mp hit with h | h
        · rw [h]; decide
        · rcases List.mem_cons.mp h with h2 | h2
          · rw [h2]; decide
          · simp at h2)

end OutblogCrawl
